import Mathlib

/-!
# Verification of the WBfish resource model and update-diffing engine

Shallow embedding of the `redfish` package sources (`role.go`, `chassis.go`)
and of the interface of the `common` package they call into.  Wire bodies are
modelled by an abstract `Bytes` alphabet; the HTTP client is a record of
functions from locations to responses; every operation additionally returns
the list of wire requests it issued, so that "no network call is made" is a
provable statement.
-/

set_option autoImplicit false

namespace WBfish

/-- Errors surfaced by the library: transport failures, JSON decode
failures, and local parameter-check failures raised before any network
call. -/
inductive RFError where
  | transport (msg : String)
  | decode (msg : String)
  | badParam (msg : String)
  deriving DecidableEq, Repr

/-- `common.Status` (declared in the out-of-scope `common` package; only its
shape as a comparable nested value matters here). -/
structure Status where
  State : String := ""
  Health : String := ""
  HealthRollup : String := ""
  deriving DecidableEq, Repr

/-- Go string-backed enum `PrivilegeType`. -/
abbrev PrivilegeType := String

/-- Go string-backed enum `ChassisType`. -/
abbrev ChassisType := String

/-- Go string-backed enum `ResetType`. -/
abbrev ResetType := String

/-- The JSON-visible content of a `Role` wire body: the fields
`encoding/json` decodes into the `Role` struct (including the promoted
`common.Entity` fields). -/
structure RoleWire where
  ID : String := ""
  Name : String := ""
  ODataID : String := ""
  ODataContext : String := ""
  ODataEtag : String := ""
  ODataType : String := ""
  AssignedPrivileges : List PrivilegeType := []
  Description : String := ""
  IsPredefined : Bool := false
  OemPrivileges : List String := []
  RoleID : String := ""
  deriving DecidableEq, Repr

/-- The JSON-visible content of a `Chassis` wire body, including the
`Links` substructure and the `#Chassis.Reset` action block that
`Chassis.UnmarshalJSON` extracts. -/
structure ChassisWire where
  ID : String := ""
  Name : String := ""
  ODataID : String := ""
  ChassisType : ChassisType := ""
  Manufacturer : String := ""
  Model : String := ""
  SKU : String := ""
  SerialNumber : String := ""
  Version : String := ""
  PartNumber : String := ""
  AssetTag : String := ""
  Status : Status := {}
  Thermal : String := ""
  Power : String := ""
  NetworkAdapters : String := ""
  ComputerSystems : List String := []
  ResourceBlocks : List String := []
  ManagedBy : List String := []
  ResetTarget : String := ""
  AllowedResetTypes : List ResetType := []
  deriving DecidableEq, Repr

/-- Minimal stand-in for the `Thermal` resource type (declared outside the
given sources); `chassis.go` only decodes a response body into it. -/
structure Thermal where
  ID : String := ""
  deriving DecidableEq, Repr

/-- Minimal stand-in for the `Power` resource type (declared outside the
given sources); `chassis.go` only decodes a response body into it. -/
structure Power where
  ID : String := ""
  deriving DecidableEq, Repr

/-- Abstract alphabet of wire bodies.  Each constructor is a body that
decodes successfully as one resource shape; `nilBytes` is the nil/empty
byte slice and `malformed` is a body on which every decode fails. -/
inductive Bytes where
  | nilBytes
  | malformed (tag : String)
  | roleBody (w : RoleWire)
  | chassisBody (w : ChassisWire)
  | collectionBody (itemLinks : List String)
  | thermalBody (t : Thermal)
  | powerBody (p : Power)
  deriving DecidableEq, Repr

/-- A field value read off a struct by name, as compared by the diff
engine. -/
inductive FieldValue where
  | str (s : String)
  | strList (l : List String)
  | boolean (b : Bool)
  | status (s : Status)
  deriving DecidableEq, Repr

/-- A wire request issued through the client. -/
inductive Request where
  | get (uri : String)
  | patch (uri : String) (payload : List (String × FieldValue))
  | post (uri : String) (body : List (String × FieldValue))
  deriving DecidableEq, Repr

/-- The transport handle (`common.Client` at its interface boundary):
each verb maps a location (and body) to a response body or an error. -/
structure Client where
  get : String → Except RFError Bytes
  patch : String → List (String × FieldValue) → Except RFError Bytes
  post : String → List (String × FieldValue) → Except RFError Bytes

/-- A zero client: every request fails (the nil client of a zero-valued
entity). -/
def Client.dummy : Client :=
  { get := fun _ => .error (.transport "nil client")
    patch := fun _ _ => .error (.transport "nil client")
    post := fun _ _ => .error (.transport "nil client") }

/-- Modelled from the spec: `common.Entity` (not among the given sources) —
the identity of a resource ("a stable string identifier plus an origin
location string") and the non-owning back-reference to the transport handle
it was fetched through. -/
structure Entity where
  ID : String := ""
  Name : String := ""
  ODataID : String := ""
  client : Client := Client.dummy

/-- `common.Entity.SetClient`. -/
def Entity.setClient (e : Entity) (c : Client) : Entity :=
  { e with client := c }

/-- The result of an operation on an entity: the final state of the
receiver, the returned error (`none` = success), and the wire requests
issued in order. -/
structure Outcome (α : Type) where
  val : α
  err : Option RFError := none
  requests : List Request := []

/-- json.Unmarshal of a wire body into the `Role` shape. -/
def decodeRoleWire : Bytes → Except RFError RoleWire
  | .roleBody w => .ok w
  | _ => .error (.decode "cannot unmarshal into Role")

/-- json.Unmarshal of a wire body into the `Chassis` shape (with its
`Links` and `Actions` sub-objects). -/
def decodeChassisWire : Bytes → Except RFError ChassisWire
  | .chassisBody w => .ok w
  | _ => .error (.decode "cannot unmarshal into Chassis")

/-- json.Unmarshal of a wire body into a collection's member-link list. -/
def decodeCollection : Bytes → Except RFError (List String)
  | .collectionBody ls => .ok ls
  | _ => .error (.decode "cannot unmarshal into Collection")

/-- json.Unmarshal of a wire body into the `Thermal` shape. -/
def decodeThermal : Bytes → Except RFError Thermal
  | .thermalBody t => .ok t
  | _ => .error (.decode "cannot unmarshal into Thermal")

/-- json.Unmarshal of a wire body into the `Power` shape. -/
def decodePower : Bytes → Except RFError Power
  | .powerBody p => .ok p
  | _ => .error (.decode "cannot unmarshal into Power")

/-- The `Role` struct of `role.go`: promoted `common.Entity`, the declared
fields, and the retained `rawData` bytes. -/
structure Role where
  entity : Entity := {}
  ODataContext : String := ""
  ODataEtag : String := ""
  ODataType : String := ""
  AssignedPrivileges : List PrivilegeType := []
  Description : String := ""
  IsPredefined : Bool := false
  OemPrivileges : List String := []
  RoleID : String := ""
  rawData : Bytes := .nilBytes

/-- `new(Role)`: the zero value. -/
def Role.zero : Role := {}

/-- The `Role` value produced by decoding a wire body `b` whose decoded
content is `w`: `*role = Role(t.temp)` overwrites every field (the
unexported client becomes the zero client) and then `role.rawData = b`. -/
def Role.ofWire (w : RoleWire) (b : Bytes) : Role :=
  { entity := { ID := w.ID, Name := w.Name, ODataID := w.ODataID }
    ODataContext := w.ODataContext
    ODataEtag := w.ODataEtag
    ODataType := w.ODataType
    AssignedPrivileges := w.AssignedPrivileges
    Description := w.Description
    IsPredefined := w.IsPredefined
    OemPrivileges := w.OemPrivileges
    RoleID := w.RoleID
    rawData := b }

/-- `Role.UnmarshalJSON` (role.go): on decode failure the receiver is left
unchanged and the error returned; on success the receiver is replaced by the
decoded value and `rawData` is set to the input bytes. -/
def Role.unmarshalJSON (_role : Role) (b : Bytes) : Except RFError Role :=
  match decodeRoleWire b with
  | .error e => .error e
  | .ok w => .ok (Role.ofWire w b)

/-- `role.UnmarshalJSON(b)` as executed on a receiver: the state of the
receiver afterwards (unchanged when decoding failed). -/
def Role.unmarshalInto (role : Role) (b : Bytes) : Role :=
  match role.unmarshalJSON b with
  | .error _ => role
  | .ok r => r

/-- `Role.GetRawData` (role.go). -/
def Role.GetRawData (role : Role) : Bytes := role.rawData

/-- Reflection field access on the exported fields of `Role`
(`reflect.ValueOf(role).Elem().FieldByName`); a name that is not a declared
field yields no value. -/
def Role.fieldOf (r : Role) : String → Option FieldValue
  | "ID" => some (.str r.entity.ID)
  | "Name" => some (.str r.entity.Name)
  | "ODataID" => some (.str r.entity.ODataID)
  | "ODataContext" => some (.str r.ODataContext)
  | "ODataEtag" => some (.str r.ODataEtag)
  | "ODataType" => some (.str r.ODataType)
  | "AssignedPrivileges" => some (.strList r.AssignedPrivileges)
  | "Description" => some (.str r.Description)
  | "IsPredefined" => some (.boolean r.IsPredefined)
  | "OemPrivileges" => some (.strList r.OemPrivileges)
  | "RoleID" => some (.str r.RoleID)
  | _ => none

/-- Modelled from the spec: the diff step of the update-diff engine
(`common.Entity.Update`, not among the given sources).  "For each field name
in the resource type's declared writable allow-list: read the field's value
from both original and current via structural reflection-equivalent field
access; if the two values differ, include the field (name + current value)
in an output partial-update payload." -/
def diffPayload {α : Type} (fieldOf : α → String → Option FieldValue)
    (original current : α) (readWriteFields : List String) :
    List (String × FieldValue) :=
  readWriteFields.filterMap fun name =>
    match fieldOf current name with
    | none => none
    | some cv => if fieldOf original name = some cv then none else some (name, cv)

/-- Modelled from the spec: the dispatch step of the update-diff engine
(`common.Entity.Update`, not among the given sources).  "If the payload is
non-empty, issue a partial-update request to the entity's own location,
carrying only the changed writable fields"; "if the payload is empty, the
operation is a no-op and succeeds trivially — no network call is made". -/
def Entity.update {α : Type} (e : Entity) (fieldOf : α → String → Option FieldValue)
    (original current : α) (readWriteFields : List String) :
    Option RFError × List Request :=
  let payload := diffPayload fieldOf original current readWriteFields
  if payload.isEmpty then (none, [])
  else
    match e.client.patch e.ODataID payload with
    | .ok _ => (none, [.patch e.ODataID payload])
    | .error err => (some err, [.patch e.ODataID payload])

/-- The writable allow-list declared inside `Role.Update` (role.go). -/
def roleReadWriteFields : List String := ["AssignedPrivileges", "OemPrivileges"]

/-- `Role.Update` (role.go): decode a fresh original from `rawData` into a
`new(Role)` — the returned error is ignored, so on decode failure the
original stays zero-valued — then hand original, current and the allow-list
to the generic engine.  The receiver itself is never assigned to. -/
def Role.Update (role : Role) : Outcome Role :=
  let original := Role.zero.unmarshalInto role.rawData
  let r := role.entity.update Role.fieldOf original role roleReadWriteFields
  { val := role, err := r.1, requests := r.2 }

/-- The partial-update payload `Role.Update` computes. -/
def Role.updatePayload (role : Role) : List (String × FieldValue) :=
  diffPayload Role.fieldOf (Role.zero.unmarshalInto role.rawData) role
    roleReadWriteFields

/-- `GetRole` (role.go): one GET, read the body, decode it (via
`Role.UnmarshalJSON`, which retains the body in `rawData`), set the
client. -/
def GetRole (c : Client) (uri : String) : Except RFError Role × List Request :=
  match c.get uri with
  | .error e => (.error e, [.get uri])
  | .ok body =>
    match Role.zero.unmarshalJSON body with
    | .error e => (.error e, [.get uri])
    | .ok role => (.ok { role with entity := role.entity.setClient c }, [.get uri])

/-- Modelled from the spec: `common.GetCollection` (not among the given
sources) — "fetches the collection's member-link list" from the given
location. -/
def GetCollection (c : Client) (link : String) :
    Except RFError (List String) × List Request :=
  match c.get link with
  | .error e => (.error e, [.get link])
  | .ok b =>
    match decodeCollection b with
    | .error e => (.error e, [.get link])
    | .ok links => (.ok links, [.get link])

/-- The member-resolution loop shared by `ListReferencedRoles` and
`ListReferencedChassis`: fetch each member link in order; on the first
failure stop and return the error beside the members resolved so far
(`return result, err` in the Go loops). -/
def resolveList {α : Type} (fetch : String → Except RFError α × List Request) :
    List String → List α × Option RFError × List Request
  | [] => ([], none, [])
  | l :: ls =>
    match fetch l with
    | (.error e, reqs) => ([], some e, reqs)
    | (.ok x, reqs) =>
      let rest := resolveList fetch ls
      (x :: rest.1, rest.2.1, reqs ++ rest.2.2)

/-- `ListReferencedRoles` (role.go): empty link short-circuits to a nil
slice and nil error; otherwise fetch the collection and resolve each
member. -/
def ListReferencedRoles (c : Client) (link : String) :
    List Role × Option RFError × List Request :=
  if link = "" then ([], none, [])
  else
    match GetCollection c link with
    | (.error e, reqs) => ([], some e, reqs)
    | (.ok links, reqs) =>
      let r := resolveList (GetRole c) links
      (r.1, r.2.1, reqs ++ r.2.2)

/-- The `Chassis` struct of `chassis.go`: promoted `common.Entity`, the
declared fields, the unexported relation-link strings extracted at decode
time, the reset action target and allowed values, and the retained
`rawData` bytes. -/
structure Chassis where
  entity : Entity := {}
  ChassisType : ChassisType := ""
  Manufacturer : String := ""
  Model : String := ""
  SKU : String := ""
  SerialNumber : String := ""
  Version : String := ""
  PartNumber : String := ""
  AssetTag : String := ""
  Status : Status := {}
  thermal : String := ""
  power : String := ""
  networkAdapters : String := ""
  computerSystems : List String := []
  resourceBlocks : List String := []
  managedBy : List String := []
  resetTarget : String := ""
  SupportedResetTypes : List ResetType := []
  rawData : Bytes := .nilBytes

/-- `new(Chassis)`: the zero value. -/
def Chassis.zero : Chassis := {}

/-- The `Chassis` value produced by decoding a wire body `b` whose decoded
content is `w`: `*chassis = Chassis(t.temp)`, then the link strings, reset
action data and `rawData` are filled in. -/
def Chassis.ofWire (w : ChassisWire) (b : Bytes) : Chassis :=
  { entity := { ID := w.ID, Name := w.Name, ODataID := w.ODataID }
    ChassisType := w.ChassisType
    Manufacturer := w.Manufacturer
    Model := w.Model
    SKU := w.SKU
    SerialNumber := w.SerialNumber
    Version := w.Version
    PartNumber := w.PartNumber
    AssetTag := w.AssetTag
    Status := w.Status
    thermal := w.Thermal
    power := w.Power
    networkAdapters := w.NetworkAdapters
    computerSystems := w.ComputerSystems
    resourceBlocks := w.ResourceBlocks
    managedBy := w.ManagedBy
    resetTarget := w.ResetTarget
    SupportedResetTypes := w.AllowedResetTypes
    rawData := b }

/-- `Chassis.UnmarshalJSON` (chassis.go): on decode failure the receiver is
left unchanged and the error returned; on success the receiver is replaced
by the decoded value with links extracted and `rawData` set to the input
bytes. -/
def Chassis.unmarshalJSON (_chassis : Chassis) (b : Bytes) : Except RFError Chassis :=
  match decodeChassisWire b with
  | .error e => .error e
  | .ok w => .ok (Chassis.ofWire w b)

/-- `chassis.UnmarshalJSON(b)` as executed on a receiver: the state of the
receiver afterwards (unchanged when decoding failed). -/
def Chassis.unmarshalInto (chassis : Chassis) (b : Bytes) : Chassis :=
  match chassis.unmarshalJSON b with
  | .error _ => chassis
  | .ok c => c

/-- `Chassis.GetRawData` (chassis.go). -/
def Chassis.GetRawData (chassis : Chassis) : Bytes := chassis.rawData

/-- Reflection field access on the exported fields of `Chassis`; note that
`"IndicatorLED"` is not a declared field of the struct, so looking it up
yields no value. -/
def Chassis.fieldOf (c : Chassis) : String → Option FieldValue
  | "ID" => some (.str c.entity.ID)
  | "Name" => some (.str c.entity.Name)
  | "ODataID" => some (.str c.entity.ODataID)
  | "ChassisType" => some (.str c.ChassisType)
  | "Manufacturer" => some (.str c.Manufacturer)
  | "Model" => some (.str c.Model)
  | "SKU" => some (.str c.SKU)
  | "SerialNumber" => some (.str c.SerialNumber)
  | "Version" => some (.str c.Version)
  | "PartNumber" => some (.str c.PartNumber)
  | "AssetTag" => some (.str c.AssetTag)
  | "Status" => some (.status c.Status)
  | "SupportedResetTypes" => some (.strList c.SupportedResetTypes)
  | _ => none

/-- The writable allow-list declared inside `Chassis.Update` (chassis.go). -/
def chassisReadWriteFields : List String := ["AssetTag", "IndicatorLED"]

/-- `Chassis.Update` (chassis.go): decode a fresh original from `rawData`
into a `new(Chassis)` — the returned error is ignored, so on decode failure
the original stays zero-valued — then hand original, current and the
allow-list to the generic engine.  The receiver itself is never assigned
to. -/
def Chassis.Update (chassis : Chassis) : Outcome Chassis :=
  let original := Chassis.zero.unmarshalInto chassis.rawData
  let r := chassis.entity.update Chassis.fieldOf original chassis chassisReadWriteFields
  { val := chassis, err := r.1, requests := r.2 }

/-- The partial-update payload `Chassis.Update` computes. -/
def Chassis.updatePayload (chassis : Chassis) : List (String × FieldValue) :=
  diffPayload Chassis.fieldOf (Chassis.zero.unmarshalInto chassis.rawData) chassis
    chassisReadWriteFields

/-- `GetChassis` (chassis.go): one GET, read the body, decode it (via
`Chassis.UnmarshalJSON`), set `rawData` to the body bytes and set the
client. -/
def GetChassis (c : Client) (uri : String) : Except RFError Chassis × List Request :=
  match c.get uri with
  | .error e => (.error e, [.get uri])
  | .ok body =>
    match Chassis.zero.unmarshalJSON body with
    | .error e => (.error e, [.get uri])
    | .ok chassis =>
      (.ok { chassis with rawData := body, entity := chassis.entity.setClient c },
       [.get uri])

/-- `ListReferencedChassis` (chassis.go): fetch the collection — note there
is no empty-link short-circuit here, unlike `ListReferencedRoles` — and
resolve each member. -/
def ListReferencedChassis (c : Client) (link : String) :
    List Chassis × Option RFError × List Request :=
  match GetCollection c link with
  | (.error e, reqs) => ([], some e, reqs)
  | (.ok links, reqs) =>
    let r := resolveList (GetChassis c) links
    (r.1, r.2.1, reqs ++ r.2.2)

/-- `Chassis.Thermal` (chassis.go): empty link yields a nil pointer and nil
error with no request; otherwise GET the link and decode a `Thermal`. -/
def Chassis.Thermal (chassis : Chassis) :
    Except RFError (Option Thermal) × List Request :=
  if chassis.thermal = "" then (.ok none, [])
  else
    match chassis.entity.client.get chassis.thermal with
    | .error e => (.error e, [.get chassis.thermal])
    | .ok b =>
      match decodeThermal b with
      | .error e => (.error e, [.get chassis.thermal])
      | .ok t => (.ok (some t), [.get chassis.thermal])

/-- `Chassis.Power` (chassis.go): empty link yields a nil pointer and nil
error with no request; otherwise GET the link and decode a `Power`. -/
def Chassis.Power (chassis : Chassis) :
    Except RFError (Option Power) × List Request :=
  if chassis.power = "" then (.ok none, [])
  else
    match chassis.entity.client.get chassis.power with
    | .error e => (.error e, [.get chassis.power])
    | .ok b =>
      match decodePower b with
      | .error e => (.error e, [.get chassis.power])
      | .ok p => (.ok (some p), [.get chassis.power])

/-- `Chassis.Reset` (chassis.go): when the chassis declares a non-empty
`SupportedResetTypes` list, the requested type must be in it, otherwise the
call fails locally; when the list is empty, any value is accepted; on
validity the reset type is POSTed to the reset target. -/
def Chassis.Reset (chassis : Chassis) (resetType : ResetType) : Outcome Unit :=
  let valid :=
    if chassis.SupportedResetTypes.length > 0 then
      chassis.SupportedResetTypes.contains resetType
    else true
  if !valid then
    { val := ()
      err := some (.badParam
        ("reset type '" ++ resetType ++ "' is not supported by this chassis")) }
  else
    let body := [("ResetType", FieldValue.str resetType)]
    match chassis.entity.client.post chassis.resetTarget body with
    | .ok _ => { val := (), requests := [.post chassis.resetTarget body] }
    | .error e =>
      { val := (), err := some e, requests := [.post chassis.resetTarget body] }

/-! ## Helper lemmas -/

/-- `true` exactly on the `ok` branch of an `Except`. -/
def exceptIsOk {ε α : Type} : Except ε α → Bool
  | .ok _ => true
  | .error _ => false

instance {ε α : Type} [DecidableEq ε] [DecidableEq α] : DecidableEq (Except ε α) :=
  fun x y =>
    match x, y with
    | .ok a, .ok b =>
      if h : a = b then .isTrue (by rw [h])
      else .isFalse (by intro hc; cases hc; exact h rfl)
    | .ok _, .error _ => .isFalse (by intro hc; cases hc)
    | .error _, .ok _ => .isFalse (by intro hc; cases hc)
    | .error a, .error b =>
      if h : a = b then .isTrue (by rw [h])
      else .isFalse (by intro hc; cases hc; exact h rfl)

theorem chassis_fieldOf_assetTag (c : Chassis) :
    c.fieldOf "AssetTag" = some (.str c.AssetTag) := rfl

theorem chassis_fieldOf_indicatorLED (c : Chassis) :
    c.fieldOf "IndicatorLED" = none := rfl

/-- Normal form of the chassis diff: only `AssetTag` can ever contribute,
since `IndicatorLED` is not a declared field. -/
theorem chassis_diffPayload_eq (orig cur : Chassis) :
    diffPayload Chassis.fieldOf orig cur chassisReadWriteFields =
      if orig.AssetTag = cur.AssetTag then []
      else [("AssetTag", FieldValue.str cur.AssetTag)] := by
  show List.filterMap _ ["AssetTag", "IndicatorLED"] = _
  rw [List.filterMap_cons, List.filterMap_cons, List.filterMap_nil]
  by_cases h : orig.AssetTag = cur.AssetTag
  · simp [chassis_fieldOf_assetTag, chassis_fieldOf_indicatorLED, h]
  · simp [chassis_fieldOf_assetTag, chassis_fieldOf_indicatorLED, h]

theorem chassis_updatePayload_of_decode (c : Chassis) (w : ChassisWire)
    (hdec : decodeChassisWire c.rawData = Except.ok w) :
    c.updatePayload =
      diffPayload Chassis.fieldOf (Chassis.ofWire w c.rawData) c
        chassisReadWriteFields := by
  unfold Chassis.updatePayload Chassis.unmarshalInto Chassis.unmarshalJSON
  rw [hdec]

theorem role_updatePayload_of_decode (r : Role) (w : RoleWire)
    (hdec : decodeRoleWire r.rawData = Except.ok w) :
    r.updatePayload =
      diffPayload Role.fieldOf (Role.ofWire w r.rawData) r roleReadWriteFields := by
  unfold Role.updatePayload Role.unmarshalInto Role.unmarshalJSON
  rw [hdec]

/-- When every allow-listed field agrees between original and current, the
diff payload is empty. -/
theorem diffPayload_eq_nil {α : Type} (fieldOf : α → String → Option FieldValue)
    (orig cur : α) (rw : List String)
    (h : ∀ name ∈ rw, fieldOf cur name = fieldOf orig name) :
    diffPayload fieldOf orig cur rw = [] := by
  unfold diffPayload
  rw [List.filterMap_eq_nil_iff]
  intro name hname
  cases hcur : fieldOf cur name with
  | none => rfl
  | some cv =>
    have : fieldOf orig name = some cv := by rw [← h name hname, hcur]
    simp [this]

/-- An empty payload makes the engine a no-op success with no request. -/
theorem entity_update_empty {α : Type} (e : Entity)
    (fieldOf : α → String → Option FieldValue) (orig cur : α) (rw : List String)
    (h : diffPayload fieldOf orig cur rw = []) :
    e.update fieldOf orig cur rw = (none, []) := by
  unfold Entity.update
  simp [h]

/-- `GetCollection` always issues exactly the one GET of the link. -/
theorem getCollection_requests (c : Client) (link : String) :
    (GetCollection c link).2 = [.get link] := by
  unfold GetCollection
  cases c.get link with
  | error e => rfl
  | ok b => cases h : decodeCollection b <;> simp [h]

/-- `GetRole` always issues exactly the one GET of the uri. -/
theorem getRole_requests (c : Client) (uri : String) :
    (GetRole c uri).2 = [.get uri] := by
  unfold GetRole
  cases c.get uri with
  | error e => rfl
  | ok b => cases h : Role.zero.unmarshalJSON b <;> simp [h]

/-- `GetChassis` always issues exactly the one GET of the uri. -/
theorem getChassis_requests (c : Client) (uri : String) :
    (GetChassis c uri).2 = [.get uri] := by
  unfold GetChassis
  cases c.get uri with
  | error e => rfl
  | ok b => cases h : Chassis.zero.unmarshalJSON b <;> simp [h]

/-! ## Claim theorems -/

/-- C9: the writable allow-list `Chassis.Update` passes to the diff engine
is exactly `["AssetTag", "IndicatorLED"]`; `"IndicatorLED"` is not a
declared field of the `Chassis` struct (field access yields nothing), so
`AssetTag` is the only chassis field whose mutation can ever appear in the
payload, and any mutation that leaves `AssetTag` alone yields an empty
payload. -/
theorem chassis_allowlist_is_assettag_only :
    chassisReadWriteFields = ["AssetTag", "IndicatorLED"] ∧
    (∀ c : Chassis, c.fieldOf "IndicatorLED" = none) ∧
    (∀ c : Chassis, ∀ nv : String × FieldValue, nv ∈ c.updatePayload →
      nv = ("AssetTag", FieldValue.str c.AssetTag)) ∧
    (∀ orig cur : Chassis, orig.AssetTag = cur.AssetTag →
      diffPayload Chassis.fieldOf orig cur chassisReadWriteFields = []) := by
  refine ⟨rfl, fun c => rfl, ?_, ?_⟩
  · intro c nv hnv
    unfold Chassis.updatePayload at hnv
    rw [chassis_diffPayload_eq] at hnv
    by_cases h : (Chassis.zero.unmarshalInto c.rawData).AssetTag = c.AssetTag
    · simp [h] at hnv
    · simp [h] at hnv
      exact hnv
  · intro orig cur h
    rw [chassis_diffPayload_eq, if_pos h]

/-- C1: for an entity whose retained `rawData` still decodes (as it does
for every successfully fetched entity, however the caller mutates the
in-memory fields), the partial-update payload computed by `Chassis.Update`
contains exactly the allow-listed field names whose current value differs
from the value decoded from `rawData`, each with its current value, and no
other keys; in particular a changed `Manufacturer` never appears. -/
theorem chassis_update_payload_exact (c : Chassis) (w : ChassisWire)
    (hdec : decodeChassisWire c.rawData = Except.ok w) :
    (∀ name v, (name, v) ∈ c.updatePayload ↔
      (name ∈ chassisReadWriteFields ∧ c.fieldOf name = some v ∧
       ¬ (Chassis.ofWire w c.rawData).fieldOf name = some v)) ∧
    ∀ v, ("Manufacturer", v) ∉ c.updatePayload := by
  have hup := chassis_updatePayload_of_decode c w hdec
  constructor
  · intro name v
    rw [hup, chassis_diffPayload_eq]
    constructor
    · intro hmem
      by_cases h : (Chassis.ofWire w c.rawData).AssetTag = c.AssetTag
      · simp [h] at hmem
      · rw [if_neg h] at hmem
        simp at hmem
        obtain ⟨hn, hv⟩ := hmem
        subst hn
        subst hv
        refine ⟨by simp [chassisReadWriteFields], chassis_fieldOf_assetTag c, ?_⟩
        rw [chassis_fieldOf_assetTag]
        simp [h]
    · rintro ⟨hlist, hcur, horig⟩
      have : name = "AssetTag" ∨ name = "IndicatorLED" := by
        simpa [chassisReadWriteFields] using hlist
      rcases this with hn | hn
      · subst hn
        rw [chassis_fieldOf_assetTag] at hcur
        rw [chassis_fieldOf_assetTag] at horig
        have hv : v = FieldValue.str c.AssetTag := by
          simpa using hcur.symm
        subst hv
        have h : ¬ (Chassis.ofWire w c.rawData).AssetTag = c.AssetTag := by
          intro heq
          exact horig (by rw [heq])
        rw [if_neg h]
        simp
      · subst hn
        rw [chassis_fieldOf_indicatorLED] at hcur
        exact absurd hcur (by simp)
  · intro v hmem
    rw [hup, chassis_diffPayload_eq] at hmem
    by_cases h : (Chassis.ofWire w c.rawData).AssetTag = c.AssetTag
    · simp [h] at hmem
    · rw [if_neg h] at hmem
      simp at hmem

/-- The chassis body of the spec's example scenario: `AssetTag` `"A1"`
(writable) and `Manufacturer` `"Acme"` (not allow-listed). -/
def wireW1 : ChassisWire :=
  { ID := "Ch1"
    Name := "Computer System Chassis"
    ODataID := "/redfish/v1/Chassis/Ch1"
    AssetTag := "A1"
    Manufacturer := "Acme" }

/-- The fetched entity of the example scenario after the caller sets
`AssetTag = "A2"` and, incorrectly, `Manufacturer = "Other"`. -/
def chassisW1 : Chassis :=
  { Chassis.ofWire wireW1 (.chassisBody wireW1) with
      AssetTag := "A2", Manufacturer := "Other" }

theorem chassis_update_payload_exact_witness :
    decodeChassisWire chassisW1.rawData = Except.ok wireW1 ∧
    (("AssetTag", FieldValue.str "A2") ∈ chassisW1.updatePayload ↔
      ("AssetTag" ∈ chassisReadWriteFields ∧
       chassisW1.fieldOf "AssetTag" = some (FieldValue.str "A2") ∧
       ¬ (Chassis.ofWire wireW1 chassisW1.rawData).fieldOf "AssetTag" =
          some (FieldValue.str "A2"))) ∧
    ("Manufacturer", FieldValue.str "Other") ∉ chassisW1.updatePayload :=
  ⟨by decide,
   (chassis_update_payload_exact chassisW1 wireW1 (by decide)).1 "AssetTag"
     (FieldValue.str "A2"),
   (chassis_update_payload_exact chassisW1 wireW1 (by decide)).2
     (FieldValue.str "Other")⟩

/-- C2: an entity freshly produced by a successful fetch, with no writable
allow-listed field mutated (stated for any current state whose allow-listed
fields agree with the decoded original), updates to an empty diff:
`Update` returns success and issues no wire request — for roles and
chassis alike. -/
theorem update_unmutated_is_noop :
    (∀ (r : Role) (w : RoleWire), decodeRoleWire r.rawData = Except.ok w →
      (∀ name ∈ roleReadWriteFields,
        r.fieldOf name = (Role.ofWire w r.rawData).fieldOf name) →
      r.Update.err = none ∧ r.Update.requests = []) ∧
    (∀ (c : Chassis) (w : ChassisWire), decodeChassisWire c.rawData = Except.ok w →
      (∀ name ∈ chassisReadWriteFields,
        c.fieldOf name = (Chassis.ofWire w c.rawData).fieldOf name) →
      c.Update.err = none ∧ c.Update.requests = []) := by
  constructor
  · intro r w hdec h
    have horig : Role.zero.unmarshalInto r.rawData = Role.ofWire w r.rawData := by
      unfold Role.unmarshalInto Role.unmarshalJSON
      rw [hdec]
    have hnil :=
      diffPayload_eq_nil Role.fieldOf (Role.ofWire w r.rawData) r roleReadWriteFields h
    have hrun : r.entity.update Role.fieldOf (Role.zero.unmarshalInto r.rawData) r
        roleReadWriteFields = (none, []) := by
      rw [horig]
      exact entity_update_empty _ _ _ _ _ hnil
    constructor
    · show (r.entity.update Role.fieldOf (Role.zero.unmarshalInto r.rawData) r
        roleReadWriteFields).1 = none
      rw [hrun]
    · show (r.entity.update Role.fieldOf (Role.zero.unmarshalInto r.rawData) r
        roleReadWriteFields).2 = ([] : List Request)
      rw [hrun]
  · intro c w hdec h
    have horig : Chassis.zero.unmarshalInto c.rawData = Chassis.ofWire w c.rawData := by
      unfold Chassis.unmarshalInto Chassis.unmarshalJSON
      rw [hdec]
    have hnil :=
      diffPayload_eq_nil Chassis.fieldOf (Chassis.ofWire w c.rawData) c
        chassisReadWriteFields h
    have hrun : c.entity.update Chassis.fieldOf (Chassis.zero.unmarshalInto c.rawData) c
        chassisReadWriteFields = (none, []) := by
      rw [horig]
      exact entity_update_empty _ _ _ _ _ hnil
    constructor
    · show (c.entity.update Chassis.fieldOf (Chassis.zero.unmarshalInto c.rawData) c
        chassisReadWriteFields).1 = none
      rw [hrun]
    · show (c.entity.update Chassis.fieldOf (Chassis.zero.unmarshalInto c.rawData) c
        chassisReadWriteFields).2 = ([] : List Request)
      rw [hrun]

/-- A role body and the entity freshly fetched from it, unmutated. -/
def wireRoleW2 : RoleWire :=
  { ID := "Administrator"
    ODataID := "/redfish/v1/AccountService/Roles/Administrator"
    AssignedPrivileges := ["Login", "ConfigureManager"]
    RoleID := "Administrator" }

def roleW2 : Role := Role.ofWire wireRoleW2 (.roleBody wireRoleW2)

/-- The chassis entity freshly fetched from the example body, unmutated. -/
def chassisW2 : Chassis := Chassis.ofWire wireW1 (.chassisBody wireW1)

theorem update_unmutated_is_noop_witness :
    (roleW2.Update.err = none ∧ roleW2.Update.requests = []) ∧
    (chassisW2.Update.err = none ∧ chassisW2.Update.requests = []) :=
  ⟨update_unmutated_is_noop.1 roleW2 wireRoleW2 (by decide) (by decide),
   update_unmutated_is_noop.2 chassisW2 wireW1 (by decide) (by decide)⟩

/-- C5: `Update` never assigns to the receiver, so `rawData` is unchanged
by a commit, and a second `Update` with no further mutation and no
intervening fetch computes its diff against the same original bytes and
issues the same requests (hence the same payload) again — for roles and
chassis alike. -/
theorem update_preserves_rawdata_and_payload :
    (∀ r : Role, r.Update.val.rawData = r.rawData ∧
      r.Update.val.Update.requests = r.Update.requests) ∧
    (∀ c : Chassis, c.Update.val.rawData = c.rawData ∧
      c.Update.val.Update.requests = c.Update.requests) :=
  ⟨fun _ => ⟨rfl, rfl⟩, fun _ => ⟨rfl, rfl⟩⟩

/-- C10: a chassis whose thermal (resp. power) relation link is the empty
string yields, from `Chassis.Thermal` (resp. `Chassis.Power`), a nil
entity (`none`) and a nil error, with no wire request issued. -/
theorem chassis_thermal_power_empty_link (c : Chassis) :
    (c.thermal = "" → c.Thermal = (Except.ok none, [])) ∧
    (c.power = "" → c.Power = (Except.ok none, [])) := by
  constructor
  · intro h
    unfold Chassis.Thermal
    rw [if_pos h]
  · intro h
    unfold Chassis.Power
    rw [if_pos h]

theorem chassis_thermal_power_empty_link_witness :
    Chassis.zero.Thermal = (Except.ok none, []) ∧
    Chassis.zero.Power = (Except.ok none, []) :=
  ⟨(chassis_thermal_power_empty_link Chassis.zero).1 rfl,
   (chassis_thermal_power_empty_link Chassis.zero).2 rfl⟩

/-- The unmutated fetched chassis with only a non-allow-listed field
(`Model`) changed. -/
def chassisW9 : Chassis := { chassisW2 with Model := "Changed" }

theorem chassis_allowlist_is_assettag_only_witness :
    ("AssetTag", FieldValue.str "A2") = ("AssetTag", FieldValue.str chassisW1.AssetTag) ∧
    diffPayload Chassis.fieldOf chassisW2 chassisW9 chassisReadWriteFields = [] :=
  ⟨chassis_allowlist_is_assettag_only.2.2.1 chassisW1
      ("AssetTag", FieldValue.str "A2") (by decide),
   chassis_allowlist_is_assettag_only.2.2.2 chassisW2 chassisW9 rfl⟩

/-- A client whose PATCH succeeds (everything else unused). -/
def clientPatchOK : Client :=
  { get := fun _ => .error (.transport "unused")
    patch := fun _ _ => .ok .nilBytes
    post := fun _ _ => .error (.transport "unused") }

/-- A role whose retained `rawData` is corrupt and whose
`AssignedPrivileges` the caller has set. -/
def roleCorrupt : Role :=
  { entity := { ID := "Operator"
                ODataID := "/redfish/v1/AccountService/Roles/Operator"
                client := clientPatchOK }
    AssignedPrivileges := ["Login"]
    rawData := .malformed "corrupt" }

/-- C3, evaluated at the failing input: the retained bytes of
`roleCorrupt` fail to decode, yet `Role.Update` — which discards the error
`UnmarshalJSON` returns — reports success and issues a PATCH whose payload
was diffed against a zero-valued original, instead of failing with the
decode error and sending nothing. -/
theorem role_update_ignores_decode_failure :
    decodeRoleWire roleCorrupt.rawData =
      Except.error (.decode "cannot unmarshal into Role") ∧
    roleCorrupt.Update.err = none ∧
    roleCorrupt.Update.requests =
      [.patch "/redfish/v1/AccountService/Roles/Operator"
        [("AssignedPrivileges", .strList ["Login"])]] := by
  refine ⟨rfl, ?_, ?_⟩ <;> decide

/-- A client that fails every request (used to watch for network calls). -/
def clientDown : Client :=
  { get := fun _ => .error (.transport "down")
    patch := fun _ _ => .error (.transport "down")
    post := fun _ _ => .error (.transport "down") }

/-- C6 counterexample: `ListReferencedChassis` called with the empty
collection location does issue a network call (the GET of the empty
location) and returns its error — it does not short-circuit the way
`ListReferencedRoles` does. -/
theorem listChassis_empty_link_counterexample :
    (ListReferencedChassis clientDown "").2.2 = [.get ""] ∧
    (ListReferencedChassis clientDown "").2.1 = some (.transport "down") := by
  constructor <;> decide

/-- C6 amended: `ListReferencedRoles` with the empty link returns an empty
sequence and no error without any network call; `ListReferencedChassis`
has no empty-link guard and always issues the GET of the given location,
empty or not, as its first wire request. -/
theorem empty_link_short_circuits_roles_only :
    (∀ c : Client, ListReferencedRoles c "" = ([], none, [])) ∧
    (∀ c : Client, ∀ link : String,
      (ListReferencedChassis c link).2.2.head? = some (.get link)) := by
  constructor
  · intro c
    rfl
  · intro c link
    unfold ListReferencedChassis
    have hreq := getCollection_requests c link
    rcases hpair : GetCollection c link with ⟨res, reqs⟩
    have hreqs : reqs = [.get link] := by rw [hpair] at hreq; exact hreq
    subst hreqs
    cases res <;> simp

/-- A chassis declaring a non-empty allowed-value list for reset. -/
def chassisW7a : Chassis :=
  { entity := { ODataID := "/redfish/v1/Chassis/1", client := clientDown }
    resetTarget := "/redfish/v1/Chassis/1/Actions/Chassis.Reset"
    SupportedResetTypes := ["On", "ForceOff"] }

/-- A client whose POST succeeds (everything else unused). -/
def clientPostOK : Client :=
  { get := fun _ => .error (.transport "unused")
    patch := fun _ _ => .error (.transport "unused")
    post := fun _ _ => .ok .nilBytes }

/-- A chassis declaring no allowed-value list for reset. -/
def chassisW7b : Chassis :=
  { entity := { ODataID := "/redfish/v1/Chassis/2", client := clientPostOK }
    resetTarget := "/redfish/v1/Chassis/2/Actions/Chassis.Reset" }

/-- C7: when `SupportedResetTypes` is non-empty and does not contain the
requested value, `Chassis.Reset` fails locally with the parameter error
and issues no wire request; when the list is empty, the value passes
validity checking and the POST to the reset target is issued. -/
theorem chassis_reset_validates_allowed_values (c : Chassis) (rt : ResetType) :
    (c.SupportedResetTypes ≠ [] → rt ∉ c.SupportedResetTypes →
      (c.Reset rt).err = some (.badParam
        ("reset type '" ++ rt ++ "' is not supported by this chassis")) ∧
      (c.Reset rt).requests = []) ∧
    (c.SupportedResetTypes = [] →
      (c.Reset rt).requests = [.post c.resetTarget [("ResetType", .str rt)]]) := by
  constructor
  · intro hne hnotin
    have hlen : c.SupportedResetTypes.length > 0 := List.length_pos.mpr hne
    have hcont : c.SupportedResetTypes.contains rt = false := by
      simpa using hnotin
    unfold Chassis.Reset
    rw [if_pos hlen, hcont]
    exact ⟨rfl, rfl⟩
  · intro hnil
    unfold Chassis.Reset
    rw [hnil]
    simp only [List.length_nil, gt_iff_lt, lt_self_iff_false, if_false,
      Bool.not_true, Bool.false_eq_true, if_neg]
    cases c.entity.client.post c.resetTarget [("ResetType", .str rt)] <;> rfl

theorem chassis_reset_validates_allowed_values_witness :
    ((chassisW7a.Reset "ForceRestart").err = some (.badParam
        ("reset type '" ++ "ForceRestart" ++ "' is not supported by this chassis")) ∧
      (chassisW7a.Reset "ForceRestart").requests = []) ∧
    (chassisW7b.Reset "On").requests =
      [.post "/redfish/v1/Chassis/2/Actions/Chassis.Reset" [("ResetType", .str "On")]] :=
  ⟨(chassis_reset_validates_allowed_values chassisW7a "ForceRestart").1
      (by decide) (by decide),
   (chassis_reset_validates_allowed_values chassisW7b "On").2 rfl⟩

theorem role_unmarshal_rawData (x : Role) (b : Bytes) (r : Role)
    (h : x.unmarshalJSON b = Except.ok r) : r.rawData = b := by
  unfold Role.unmarshalJSON at h
  cases hd : decodeRoleWire b with
  | error e => rw [hd] at h; cases h
  | ok w => rw [hd] at h; cases h; rfl

theorem chassis_unmarshal_rawData (x : Chassis) (b : Bytes) (ch : Chassis)
    (h : x.unmarshalJSON b = Except.ok ch) : ch.rawData = b := by
  unfold Chassis.unmarshalJSON at h
  cases hd : decodeChassisWire b with
  | error e => rw [hd] at h; cases h
  | ok w => rw [hd] at h; cases h; rfl

/-- C8: on a successful fetch the returned entity's `rawData` is exactly
the bytes of the response body; a transport failure or a decode failure of
the body produces no entity and surfaces the error unchanged — for
`GetRole` and `GetChassis` alike. -/
theorem fetch_retains_body_and_surfaces_errors (c : Client) (uri : String) :
    (∀ r : Role, (GetRole c uri).1 = Except.ok r →
      c.get uri = Except.ok r.rawData) ∧
    (∀ ch : Chassis, (GetChassis c uri).1 = Except.ok ch →
      c.get uri = Except.ok ch.rawData) ∧
    (∀ e, c.get uri = Except.error e →
      (GetRole c uri).1 = Except.error e ∧ (GetChassis c uri).1 = Except.error e) ∧
    (∀ b e, c.get uri = Except.ok b → decodeRoleWire b = Except.error e →
      (GetRole c uri).1 = Except.error e) ∧
    (∀ b e, c.get uri = Except.ok b → decodeChassisWire b = Except.error e →
      (GetChassis c uri).1 = Except.error e) := by
  have heqRole : ∀ b, c.get uri = Except.ok b →
      (GetRole c uri).1 = (match Role.zero.unmarshalJSON b with
        | .error e => Except.error e
        | .ok role => Except.ok { role with entity := role.entity.setClient c }) := by
    intro b hg
    unfold GetRole
    rw [hg]
    cases hu : Role.zero.unmarshalJSON b <;> simp [hu]
  have heqChassis : ∀ b, c.get uri = Except.ok b →
      (GetChassis c uri).1 = (match Chassis.zero.unmarshalJSON b with
        | .error e => Except.error e
        | .ok chassis =>
          Except.ok { chassis with rawData := b, entity := chassis.entity.setClient c }) := by
    intro b hg
    unfold GetChassis
    rw [hg]
    cases hu : Chassis.zero.unmarshalJSON b <;> simp [hu]
  refine ⟨?_, ?_, ?_, ?_, ?_⟩
  · intro r hr
    cases hg : c.get uri with
    | error e =>
      unfold GetRole at hr
      rw [hg] at hr
      cases hr
    | ok b =>
      rw [heqRole b hg] at hr
      cases hu : Role.zero.unmarshalJSON b with
      | error e => rw [hu] at hr; cases hr
      | ok role =>
        rw [hu] at hr
        cases hr
        exact congrArg Except.ok (role_unmarshal_rawData _ _ _ hu).symm
  · intro ch hch
    cases hg : c.get uri with
    | error e =>
      unfold GetChassis at hch
      rw [hg] at hch
      cases hch
    | ok b =>
      rw [heqChassis b hg] at hch
      cases hu : Chassis.zero.unmarshalJSON b with
      | error e => rw [hu] at hch; cases hch
      | ok chassis =>
        rw [hu] at hch
        cases hch
        rfl
  · intro e hg
    constructor
    · unfold GetRole
      rw [hg]
    · unfold GetChassis
      rw [hg]
  · intro b e hg hd
    have hu : Role.zero.unmarshalJSON b = Except.error e := by
      unfold Role.unmarshalJSON
      rw [hd]
    rw [heqRole b hg, hu]
  · intro b e hg hd
    have hu : Chassis.zero.unmarshalJSON b = Except.error e := by
      unfold Chassis.unmarshalJSON
      rw [hd]
    rw [heqChassis b hg, hu]

/-- A client serving the example role body at every location. -/
def clientRoleW8 : Client :=
  { get := fun _ => .ok (.roleBody wireRoleW2)
    patch := fun _ _ => .error (.transport "unused")
    post := fun _ _ => .error (.transport "unused") }

/-- The entity `GetRole clientRoleW8` produces. -/
def roleW8 : Role :=
  { Role.ofWire wireRoleW2 (.roleBody wireRoleW2) with
      entity := { ID := wireRoleW2.ID
                  Name := wireRoleW2.Name
                  ODataID := wireRoleW2.ODataID
                  client := clientRoleW8 } }

/-- A client serving the example chassis body at every location. -/
def clientChassisW8 : Client :=
  { get := fun _ => .ok (.chassisBody wireW1)
    patch := fun _ _ => .error (.transport "unused")
    post := fun _ _ => .error (.transport "unused") }

/-- The entity `GetChassis clientChassisW8` produces. -/
def chassisW8 : Chassis :=
  { Chassis.ofWire wireW1 (.chassisBody wireW1) with
      entity := { ID := wireW1.ID
                  Name := wireW1.Name
                  ODataID := wireW1.ODataID
                  client := clientChassisW8 } }

/-- A client answering every GET with a body no resource shape decodes. -/
def clientMalformed : Client :=
  { get := fun _ => .ok (.malformed "junk")
    patch := fun _ _ => .error (.transport "unused")
    post := fun _ _ => .error (.transport "unused") }

theorem fetch_retains_body_and_surfaces_errors_witness :
    clientRoleW8.get "/r" = Except.ok roleW8.rawData ∧
    clientChassisW8.get "/c" = Except.ok chassisW8.rawData ∧
    ((GetRole clientDown "/x").1 = Except.error (.transport "down") ∧
     (GetChassis clientDown "/x").1 = Except.error (.transport "down")) ∧
    (GetRole clientMalformed "/x").1 =
      Except.error (.decode "cannot unmarshal into Role") ∧
    (GetChassis clientMalformed "/x").1 =
      Except.error (.decode "cannot unmarshal into Chassis") :=
  ⟨(fetch_retains_body_and_surfaces_errors clientRoleW8 "/r").1 roleW8 rfl,
   (fetch_retains_body_and_surfaces_errors clientChassisW8 "/c").2.1 chassisW8 rfl,
   (fetch_retains_body_and_surfaces_errors clientDown "/x").2.2.1
     (.transport "down") rfl,
   (fetch_retains_body_and_surfaces_errors clientMalformed "/x").2.2.2.1
     (.malformed "junk") (.decode "cannot unmarshal into Role") rfl rfl,
   (fetch_retains_body_and_surfaces_errors clientMalformed "/x").2.2.2.2
     (.malformed "junk") (.decode "cannot unmarshal into Chassis") rfl rfl⟩

/-- A role body used by the collection scenario. -/
def roleWireA : RoleWire :=
  { ID := "ReadOnly", ODataID := "/redfish/v1/AccountService/Roles/ReadOnly" }

/-- A client serving a three-member role collection whose second member's
fetch fails. -/
def clientC4 : Client :=
  { get := fun uri =>
      if uri = "/redfish/v1/AccountService/Roles" then
        .ok (.collectionBody
          ["/redfish/v1/AccountService/Roles/ReadOnly",
           "/redfish/v1/AccountService/Roles/Operator",
           "/redfish/v1/AccountService/Roles/Administrator"])
      else if uri = "/redfish/v1/AccountService/Roles/ReadOnly" then
        .ok (.roleBody roleWireA)
      else if uri = "/redfish/v1/AccountService/Roles/Operator" then
        .error (.transport "boom")
      else if uri = "/redfish/v1/AccountService/Roles/Administrator" then
        .ok (.roleBody { roleWireA with ID := "Administrator" })
      else .error (.transport "404")
    patch := fun _ _ => .error (.transport "unused")
    post := fun _ _ => .error (.transport "unused") }

/-- C4 counterexample: on a three-member collection whose second member's
fetch fails, `ListReferencedRoles` returns the error together with the ONE
member resolved before the failure — not an empty/discarded result
sequence. -/
theorem list_resolver_partial_counterexample :
    (ListReferencedRoles clientC4 "/redfish/v1/AccountService/Roles").2.1 =
      some (.transport "boom") ∧
    (ListReferencedRoles clientC4 "/redfish/v1/AccountService/Roles").1.length = 1 := by
  constructor <;> decide

/-- The resolution loop, run on a link list split as
`pre ++ bad :: post` where every `pre` fetch succeeds and the `bad` fetch
fails: it stops at `bad`, keeps the `pre` results, returns the error, and
never fetches `post`. -/
theorem resolveList_stops_at_first_failure {α : Type}
    (fetch : String → Except RFError α × List Request)
    (pre post : List String) (bad : String) (e : RFError)
    (hreq : ∀ l, (fetch l).2 = [.get l])
    (hpre : ∀ l ∈ pre, exceptIsOk (fetch l).1 = true)
    (hbad : (fetch bad).1 = Except.error e) :
    (resolveList fetch (pre ++ bad :: post)).1.length = pre.length ∧
    (resolveList fetch (pre ++ bad :: post)).2.1 = some e ∧
    (resolveList fetch (pre ++ bad :: post)).2.2 = (pre ++ [bad]).map Request.get := by
  induction pre with
  | nil =>
    rcases hf : fetch bad with ⟨res, reqs⟩
    have hres : res = Except.error e := by rw [hf] at hbad; exact hbad
    have hreqs : reqs = [.get bad] := by
      have h := hreq bad
      rw [hf] at h
      exact h
    subst hres
    subst hreqs
    simp [resolveList, hf]
  | cons l ls ih =>
    have hl := hpre l (List.mem_cons_self l ls)
    rcases hf : fetch l with ⟨res, reqs⟩
    cases res with
    | error err =>
      rw [hf] at hl
      simp [exceptIsOk] at hl
    | ok x =>
      have hreqs : reqs = [.get l] := by
        have h := hreq l
        rw [hf] at h
        exact h
      subst hreqs
      have ihh := ih (fun m hm => hpre m (List.mem_cons_of_mem _ hm))
      simp only [List.cons_append, resolveList, hf]
      refine ⟨?_, ?_, ?_⟩
      · simp [ihh.1]
      · simp [ihh.2.1]
      · simp [ihh.2.2]

theorem listRoles_eq_of_collection (c : Client) (link : String) (links : List String)
    (hlink : ¬ link = "") (hcoll : (GetCollection c link).1 = Except.ok links) :
    ListReferencedRoles c link =
      ((resolveList (GetRole c) links).1,
       (resolveList (GetRole c) links).2.1,
       Request.get link :: (resolveList (GetRole c) links).2.2) := by
  have hpair : GetCollection c link = (Except.ok links, [Request.get link]) := by
    rcases hp : GetCollection c link with ⟨r1, r2⟩
    have h2 := getCollection_requests c link
    rw [hp] at hcoll h2
    simp only at hcoll h2
    rw [hcoll, h2]
  unfold ListReferencedRoles
  rw [if_neg hlink, hpair]
  rfl

theorem listChassis_eq_of_collection (c : Client) (link : String) (links : List String)
    (hcoll : (GetCollection c link).1 = Except.ok links) :
    ListReferencedChassis c link =
      ((resolveList (GetChassis c) links).1,
       (resolveList (GetChassis c) links).2.1,
       Request.get link :: (resolveList (GetChassis c) links).2.2) := by
  have hpair : GetCollection c link = (Except.ok links, [Request.get link]) := by
    rcases hp : GetCollection c link with ⟨r1, r2⟩
    have h2 := getCollection_requests c link
    rw [hp] at hcoll h2
    simp only at hcoll h2
    rw [hcoll, h2]
  unfold ListReferencedChassis
  rw [hpair]
  rfl

/-- C4 amended: on the first member-fetch failure the resolvers stop and
return that error, but TOGETHER WITH the partial prefix of members
resolved before the failure (which the caller is expected to discard), not
an empty result; no member after the failing one is fetched (the request
log ends at the failing GET). -/
theorem list_resolvers_stop_at_first_failure :
    (∀ (c : Client) (link : String) (pre post : List String) (bad : String) (e : RFError),
      link ≠ "" →
      (GetCollection c link).1 = Except.ok (pre ++ bad :: post) →
      (∀ l ∈ pre, exceptIsOk (GetRole c l).1 = true) →
      (GetRole c bad).1 = Except.error e →
      (ListReferencedRoles c link).2.1 = some e ∧
      (ListReferencedRoles c link).1.length = pre.length ∧
      (ListReferencedRoles c link).2.2 =
        Request.get link :: (pre ++ [bad]).map Request.get) ∧
    (∀ (c : Client) (link : String) (pre post : List String) (bad : String) (e : RFError),
      (GetCollection c link).1 = Except.ok (pre ++ bad :: post) →
      (∀ l ∈ pre, exceptIsOk (GetChassis c l).1 = true) →
      (GetChassis c bad).1 = Except.error e →
      (ListReferencedChassis c link).2.1 = some e ∧
      (ListReferencedChassis c link).1.length = pre.length ∧
      (ListReferencedChassis c link).2.2 =
        Request.get link :: (pre ++ [bad]).map Request.get) := by
  constructor
  · intro c link pre post bad e hlink hcoll hpre hbad
    have main := resolveList_stops_at_first_failure (GetRole c) pre post bad e
      (getRole_requests c) hpre hbad
    rw [listRoles_eq_of_collection c link (pre ++ bad :: post) hlink hcoll]
    exact ⟨main.2.1, main.1, by rw [main.2.2]⟩
  · intro c link pre post bad e hcoll hpre hbad
    have main := resolveList_stops_at_first_failure (GetChassis c) pre post bad e
      (getChassis_requests c) hpre hbad
    rw [listChassis_eq_of_collection c link (pre ++ bad :: post) hcoll]
    exact ⟨main.2.1, main.1, by rw [main.2.2]⟩

/-- A client serving a two-member chassis collection whose second member's
fetch fails. -/
def clientC4ch : Client :=
  { get := fun uri =>
      if uri = "/redfish/v1/Chassis" then
        .ok (.collectionBody ["/redfish/v1/Chassis/1", "/redfish/v1/Chassis/2"])
      else if uri = "/redfish/v1/Chassis/1" then .ok (.chassisBody wireW1)
      else if uri = "/redfish/v1/Chassis/2" then .error (.transport "boom")
      else .error (.transport "404")
    patch := fun _ _ => .error (.transport "unused")
    post := fun _ _ => .error (.transport "unused") }

theorem list_resolvers_stop_at_first_failure_witness :
    ((ListReferencedRoles clientC4 "/redfish/v1/AccountService/Roles").2.1 =
        some (.transport "boom") ∧
      (ListReferencedRoles clientC4 "/redfish/v1/AccountService/Roles").1.length = 1 ∧
      (ListReferencedRoles clientC4 "/redfish/v1/AccountService/Roles").2.2 =
        Request.get "/redfish/v1/AccountService/Roles" ::
          (["/redfish/v1/AccountService/Roles/ReadOnly"] ++
            ["/redfish/v1/AccountService/Roles/Operator"]).map Request.get) ∧
    ((ListReferencedChassis clientC4ch "/redfish/v1/Chassis").2.1 =
        some (.transport "boom") ∧
      (ListReferencedChassis clientC4ch "/redfish/v1/Chassis").1.length = 1 ∧
      (ListReferencedChassis clientC4ch "/redfish/v1/Chassis").2.2 =
        Request.get "/redfish/v1/Chassis" ::
          (["/redfish/v1/Chassis/1"] ++ ["/redfish/v1/Chassis/2"]).map Request.get) :=
  ⟨list_resolvers_stop_at_first_failure.1 clientC4 "/redfish/v1/AccountService/Roles"
      ["/redfish/v1/AccountService/Roles/ReadOnly"]
      ["/redfish/v1/AccountService/Roles/Administrator"]
      "/redfish/v1/AccountService/Roles/Operator" (.transport "boom")
      (by decide) (by decide) (by decide) rfl,
   list_resolvers_stop_at_first_failure.2 clientC4ch "/redfish/v1/Chassis"
      ["/redfish/v1/Chassis/1"] [] "/redfish/v1/Chassis/2" (.transport "boom")
      (by decide) (by decide) rfl⟩

end WBfish
